import Mathlib

/-!
Verification of the context-addressed patch engine described by the repository
specification, together with facts about the repository's test fixtures
(`complex-update`, `whitespace-fuzzy`, `vehicles`).

The repository ships the fixture corpus; the engine itself (Normalizer,
Fuzzy Matcher, Scope Disambiguator, Patch Applier, Tree Operation Executor)
is modelled here from the specification text, faithfully to its contracts
(§4.2–§4.6, §7).
-/

set_option maxRecDepth 8000

/-- Modelled from the spec: §4.2 Normalizer helper — the engine source is not in
the repository snapshot, only its fixtures; a character is comparison-irrelevant
whitespace (space or tab). -/
def isWsChar (c : Char) : Bool := c == ' ' || c == '\t'

/-- Modelled from the spec: §4.2 — accumulate the maximal non-whitespace runs
of a character list (`cur` is the current run, reversed). -/
def tokensAux : List Char → List Char → List String
  | [], cur => if cur.isEmpty then [] else [String.mk cur.reverse]
  | c :: rest, cur =>
    if isWsChar c then
      if cur.isEmpty then tokensAux rest []
      else String.mk cur.reverse :: tokensAux rest []
    else tokensAux rest (c :: cur)

/-- Modelled from the spec: §4.2 — the maximal non-whitespace chunks of a line;
leading/trailing whitespace and the lengths of interior whitespace runs
(tabs or spaces) carry no information for comparison. -/
def tokens (line : String) : List String :=
  tokensAux line.toList []

/-- Modelled from the spec: §4.2 Normalizer — comparison-friendly form of a line:
tab/space runs collapsed to a single space, leading/trailing whitespace
stripped.  Never applied to content written to disk. -/
def normalizeLine (line : String) : String :=
  String.intercalate " " (tokens line)

/-- Modelled from the spec: §4.2 — two lines are fuzzily equal iff their
normalized forms are identical. -/
def fuzzyEq (a b : String) : Bool := normalizeLine a == normalizeLine b

/-- Modelled from the spec: §4.3 — number of fuzzily-equal line pairs at
matching offsets between the window of `file` starting at `s` and `old`. -/
def countFuzzy (file old : List String) (s : Nat) : Nat :=
  (List.range old.length).countP (fun i => fuzzyEq (file.getD (s + i) "") (old.getD i ""))

/-- Modelled from the spec: §4.3 — number of raw-identical (no normalization)
line pairs at matching offsets between the window of `file` at `s` and `old`. -/
def countExact (file old : List String) (s : Nat) : Nat :=
  (List.range old.length).countP (fun i => file.getD (s + i) "" == old.getD i "")

/-- Modelled from the spec: §4.3 — acceptance threshold on a window's fuzzy
count: score ≥ 0.8 for windows of length ≥ 3 (as 4·m ≤ 5·cnt), full fuzzy
equality for windows of length 1–2. -/
def passesThreshold (m cnt : Nat) : Bool :=
  if 3 ≤ m then decide (4 * m ≤ 5 * cnt) else decide (cnt = m)

/-- Modelled from the spec: §3 MatchCandidate — 0-based half-open span,
normalized similarity score in [0,1], and exact (non-normalized) overlap
count for tie-breaking. -/
structure MatchCandidate where
  start_line : Nat
  end_line : Nat
  score : ℚ
  exact_overlap : Nat
deriving DecidableEq

/-- Modelled from the spec: §4.3 — the candidate describing the window of
`file` at start position `s` matched against `old`. -/
def windowCandidate (file old : List String) (s : Nat) : MatchCandidate :=
  { start_line := s
    end_line := s + old.length
    score := mkRat (countFuzzy file old s) old.length
    exact_overlap := countExact file old s }

/-- Modelled from the spec: §4.3 — a start position is retained when the window
fits in the file and its fuzzy count reaches the acceptance threshold. -/
def qualifies (file old : List String) (s : Nat) : Bool :=
  decide (s + old.length ≤ file.length) && passesThreshold old.length (countFuzzy file old s)

/-- Modelled from the spec: §4.3 — all retained window start positions, left to
right. -/
def qualifyingStarts (file old : List String) : List Nat :=
  (List.range (file.length + 1 - old.length)).filter (qualifies file old)

/-- Modelled from the spec: §4.3 — retain only the best-scoring candidates. -/
def bestByScore (qs : List MatchCandidate) : List MatchCandidate :=
  qs.filter (fun c => qs.all (fun d => decide (d.score ≤ c.score)))

/-- Modelled from the spec: §4.3 — among equal scores, prefer the larger exact
(non-normalized) overlap. -/
def bestByOverlap (qs : List MatchCandidate) : List MatchCandidate :=
  qs.filter (fun c => qs.all (fun d => decide (d.exact_overlap ≤ c.exact_overlap)))

/-- Modelled from the spec: §4.3 Fuzzy Matcher — slide a window of length
`old.length` across `file`; retain windows at or above the threshold; ties in
score are broken by `exact_overlap`; remaining ties are passed on as multiple
candidates. -/
def find_candidates (file old : List String) : List MatchCandidate :=
  bestByOverlap (bestByScore ((qualifyingStarts file old).map (windowCandidate file old)))

/-- Modelled from the spec: §7 error kinds (the parser's `MalformedPatch`
included for completeness). -/
inductive PatchError where
  | MalformedPatch
  | PathNotFound
  | PathExists
  | NoMatch
  | AmbiguousMatch
deriving DecidableEq

/-- Modelled from the spec: §3 Hunk — anchor context split into the lines
before (`pre_context`) and after (`post_context`) the replaced interior
`old_lines`; `new_lines` is the replacement.  The anchor context is
`pre_context ++ old_lines ++ post_context`. -/
structure Hunk where
  pre_context : List String
  old_lines : List String
  post_context : List String
  new_lines : List String
deriving DecidableEq

/-- Modelled from the spec: §4.4 step (b) — how well the surrounding lines
(a fixed window of 3 lines above and below the matched span `[s, e)`) match
the anchor-context lines outside `old_lines`, scored by fuzzy equality at
matching offsets. -/
def contextScore (file : List String) (pre post : List String) (s e : Nat) : Nat :=
  let preW := pre.drop (pre.length - 3)
  let postW := post.take 3
  ((List.range preW.length).countP (fun j =>
      decide (j < s) && fuzzyEq (file.getD (s - 1 - j) "") (preW.getD (preW.length - 1 - j) ""))) +
  ((List.range postW.length).countP (fun j =>
      decide (e + j < file.length) && fuzzyEq (file.getD (e + j) "") (postW.getD j "")))

/-- Modelled from the spec: §4.4 Scope Disambiguator — reduce the candidate
list to exactly one or fail: (a) strictly highest score, (b) best anchor
context overlap, (c) nearest to the previous applied hunk's end, (d) fail
with `AmbiguousMatch`; an empty candidate list is a `NoMatch`. -/
def resolve (file : List String) (pre post : List String) (prevEnd : Option Nat)
    (cands : List MatchCandidate) : Except PatchError MatchCandidate :=
  let a := cands.filter (fun c => cands.all (fun d => decide (d.score ≤ c.score)))
  match a with
  | [] => .error .NoMatch
  | [c] => .ok c
  | _ =>
    let b := a.filter (fun c => a.all (fun d =>
        decide (contextScore file pre post d.start_line d.end_line ≤
                contextScore file pre post c.start_line c.end_line)))
    match b with
    | [c] => .ok c
    | _ =>
      match prevEnd with
      | none => .error .AmbiguousMatch
      | some p =>
        match b.filter (fun c => b.all (fun d =>
            decide (max c.start_line p - min c.start_line p ≤
                    max d.start_line p - min d.start_line p))) with
        | [c] => .ok c
        | _ => .error .AmbiguousMatch

/-- Modelled from the spec: §4.5 Patch Applier — replace the half-open span
`[s, e)` of `file` with `new` verbatim; no normalization is applied to
written content. -/
def spliceLines (file : List String) (s e : Nat) (new : List String) : List String :=
  file.take s ++ new ++ file.drop e

/-- Modelled from the spec: §4.3–§4.5 — locate one hunk in the current file
state and apply it, returning the updated lines and the end position of the
replacement (feeding §4.4 step (c) for the next hunk); a hunk with empty
`old_lines` is a pure insertion located by its anchor context. -/
def applyHunk (file : List String) (h : Hunk) (prevEnd : Option Nat) :
    Except PatchError (List String × Nat) :=
  if h.old_lines.isEmpty then
    match resolve file h.pre_context h.post_context prevEnd
        (find_candidates file (h.pre_context ++ h.post_context)) with
    | .error e => .error e
    | .ok c =>
      let ins := c.start_line + h.pre_context.length
      .ok (file.take ins ++ h.new_lines ++ file.drop ins, ins + h.new_lines.length)
  else
    match resolve file h.pre_context h.post_context prevEnd (find_candidates file h.old_lines) with
    | .error e => .error e
    | .ok c =>
      .ok (spliceLines file c.start_line c.end_line h.new_lines,
           c.start_line + h.new_lines.length)

/-- Modelled from the spec: §4.5, §4.6 Update — run the hunks in declared
order, each hunk searching the already-updated lines; the first failure
aborts the whole per-file update. -/
def processHunks (file : List String) (hunks : List Hunk) (prevEnd : Option Nat) :
    Except PatchError (List String) :=
  match hunks with
  | [] => .ok file
  | h :: rest =>
    match applyHunk file h prevEnd with
    | .error e => .error e
    | .ok (f2, e2) => processHunks f2 rest (some e2)

/-- Modelled from the spec: §3 FileState creation — split file content into
its lines at newline characters (`cur` is the current line, reversed). -/
def splitLinesAux : List Char → List Char → List String
  | [], cur => [String.mk cur.reverse]
  | c :: rest, cur =>
    if c == '\n' then String.mk cur.reverse :: splitLinesAux rest []
    else splitLinesAux rest (c :: cur)

/-- Modelled from the spec: §3 — file content as an ordered sequence of lines. -/
def splitLines (s : String) : List String :=
  splitLinesAux s.toList []

/-- Modelled from the spec: §6 — the file tree seen through the filesystem
collaborator: `read_file` is lookup, absent files are `none`. -/
def FileTree : Type := String → Option String

/-- Modelled from the spec: §6 collaborator contract — `write_file`. -/
def write_file (t : FileTree) (p c : String) : FileTree :=
  fun q => if q = p then some c else t q

/-- Modelled from the spec: §6 collaborator contract — `remove_file`. -/
def remove_file (t : FileTree) (p : String) : FileTree :=
  fun q => if q = p then none else t q

/-- Modelled from the spec: §3 Operation — tagged variant with target path,
Add content, Move source/target, Update hunks. -/
inductive Operation where
  | update (target_path : String) (hunks : List Hunk)
  | add (target_path : String) (content : String)
  | delete (target_path : String)
  | move (source_path target_path : String)

/-- Modelled from the spec: §5/§8 — whether an operation touches a path (its
target, or for Move also its source). -/
def opTouches (op : Operation) (p : String) : Bool :=
  match op with
  | .update tp _ => decide (p = tp)
  | .add tp _ => decide (p = tp)
  | .delete tp => decide (p = tp)
  | .move sp tp => decide (p = sp) || decide (p = tp)

/-- Modelled from the spec: outcome of one operation — the tree afterwards,
the `write_file` calls issued while executing it, and its reported result. -/
structure OpOutcome where
  tree : FileTree
  writes : List (String × String)
  result : Except PatchError Unit

/-- Modelled from the spec: §4.6 Tree Operation Executor — dispatch by kind;
Add never overwrites, Delete and Move check their path preconditions, Update
reads, runs all hunks, and writes back exactly once only if every hunk
succeeded, leaving the file untouched otherwise. -/
def applyOperation (t : FileTree) : Operation → OpOutcome
  | .add p c =>
    match t p with
    | some _ => ⟨t, [], .error .PathExists⟩
    | none => ⟨write_file t p c, [(p, c)], .ok ()⟩
  | .delete p =>
    match t p with
    | none => ⟨t, [], .error .PathNotFound⟩
    | some _ => ⟨remove_file t p, [], .ok ()⟩
  | .move src dst =>
    match t src with
    | none => ⟨t, [], .error .PathNotFound⟩
    | some c =>
      match t dst with
      | some _ => ⟨t, [], .error .PathExists⟩
      | none => ⟨write_file (remove_file t src) dst c, [(dst, c)], .ok ()⟩
  | .update p hunks =>
    match t p with
    | none => ⟨t, [], .error .PathNotFound⟩
    | some content =>
      match processHunks (splitLines content) hunks none with
      | .error e => ⟨t, [], .error e⟩
      | .ok newLines =>
        ⟨write_file t p (String.intercalate "\n" newLines),
         [(p, String.intercalate "\n" newLines)], .ok ()⟩

/-- Modelled from the spec: §2/§5 — run a whole patch: operations strictly in
declared order, each against the tree left by the previous one. -/
def runPatch (ops : List Operation) (t : FileTree) : FileTree :=
  ops.foldl (fun tr op => (applyOperation tr op).tree) t
def complexTemplate : List String := [
  "import os",
  "import sys",
  "from typing import List, Dict",
  "from pathlib import Path",
  "",
  "class DataProcessor:",
  "    \"\"\"A class for processing various data formats.\"\"\"",
  "    ",
  "    def __init__(self, config_path: str):",
  "        self.config_path = config_path",
  "        self.data = \x7b\x7d",
  "        self.processed_count = 0",
  "    ",
  "    def load_config(self) -> Dict:",
  "        \"\"\"Load configuration from file.\"\"\"",
  "        if not os.path.exists(self.config_path):",
  "            raise FileNotFoundError(f\"Config file not found: \x7bself.config_path\x7d\")",
  "        ",
  "        with open(self.config_path, 'r') as f:",
  "            return eval(f.read())  # Simple eval for demo",
  "    ",
  "    def process_data(self, items: List[str]) -> List[str]:",
  "        \"\"\"Process a list of data items.\"\"\"",
  "        results = []",
  "        for item in items:",
  "            if item.strip():",
  "                processed = item.upper().strip()",
  "                results.append(processed)",
  "                self.processed_count += 1",
  "        return results",
  "    ",
  "    def save_results(self, results: List[str], output_path: str) -> None:",
  "        \"\"\"Save processed results to file.\"\"\"",
  "        with open(output_path, 'w') as f:",
  "            for result in results:",
  "                f.write(f\"\x7bresult\x7d\\n\")",
  "    ",
  "    def get_stats(self) -> Dict:",
  "        \"\"\"Get processing statistics.\"\"\"",
  "        return \x7b",
  "            'processed_count': self.processed_count,",
  "            'config_path': self.config_path",
  "        \x7d",
  "",
  "if __name__ == \"__main__\":",
  "    processor = DataProcessor(\"config.json\")",
  "    data = [\"  hello  \", \"world\", \"\", \"  python  \"]",
  "    results = processor.process_data(data)",
  "    processor.save_results(results, \"output.txt\")",
  "    print(f\"Processed \x7blen(results)\x7d items\")"]

def complexExpected : List String := [
  "import os",
  "import sys",
  "import json",
  "import logging",
  "from typing import List, Dict",
  "from pathlib import Path",
  "",
  "class DataProcessor:",
  "    \"\"\"A class for processing various data formats.\"\"\"",
  "    ",
  "    def __init__(self, config_path: str):",
  "        self.config_path = config_path",
  "        self.data = \x7b\x7d",
  "        self.processed_count = 0",
  "    ",
  "    def load_config(self) -> Dict:",
  "        \"\"\"Load configuration from file.\"\"\"",
  "        if not os.path.exists(self.config_path):",
  "            logging.error(f\"Config file not found: \x7bself.config_path\x7d\")",
  "            raise FileNotFoundError(f\"Config file not found: \x7bself.config_path\x7d\")",
  "        ",
  "        with open(self.config_path, 'r') as f:",
  "            # Use json.load instead of eval for security",
  "            return json.load(f)",
  "    ",
  "    def process_data(self, items: List[str]) -> List[str]:",
  "        \"\"\"Process a list of data items.\"\"\"",
  "        results = []",
  "        for item in items:",
  "            if item.strip():",
  "                processed = item.upper().strip()",
  "                results.append(processed)",
  "                self.processed_count += 1",
  "        return results",
  "    ",
  "    def save_results(self, results: List[str], output_path: str) -> None:",
  "        \"\"\"Save processed results to file.\"\"\"",
  "        with open(output_path, 'w') as f:",
  "            for result in results:",
  "                f.write(f\"\x7bresult\x7d\\n\")",
  "    ",
  "    def get_stats(self) -> Dict:",
  "        \"\"\"Get processing statistics.\"\"\"",
  "        return \x7b",
  "            'processed_count': self.processed_count,",
  "            'config_path': self.config_path",
  "        \x7d",
  "",
  "    def reset_stats(self) -> None:",
  "        \"\"\"Reset processing statistics.\"\"\"",
  "        self.processed_count = 0",
  "        self.data.clear()",
  "        logging.info(\"Statistics reset\")",
  "    ",
  "    def validate_data(self, items: List[str]) -> bool:",
  "        \"\"\"Validate input data before processing.\"\"\"",
  "        return all(isinstance(item, str) for item in items)",
  "",
  "if __name__ == \"__main__\":",
  "    processor = DataProcessor(\"config.json\")",
  "    data = [\"  hello  \", \"world\", \"\", \"  python  \"]",
  "    results = processor.process_data(data)",
  "    processor.save_results(results, \"output.txt\")",
  "    print(f\"Processed \x7blen(results)\x7d items\")"]

def vehiclesFile : List String := [
  "\"\"\"",
  "Vehicle management system with multiple classes having similar method names.",
  "This file is designed to test hierarchical navigation in patch systems.",
  "\"\"\"",
  "",
  "import datetime",
  "from typing import Optional, Dict, Any",
  "",
  "",
  "class Car:",
  "    \"\"\"Car class with standard vehicle operations.\"\"\"",
  "    ",
  "    def __init__(self, make: str, model: str, year: int):",
  "        self.make = make",
  "        self.model = model",
  "        self.year = year",
  "        self.mileage = 0",
  "        self.fuel_level = 100.0",
  "        self.is_running = False",
  "        self.maintenance_due = False",
  "    ",
  "    def start(self) -> bool:",
  "        \"\"\"Start the car engine.\"\"\"",
  "        if self.fuel_level > 0:",
  "            self.is_running = True",
  "            return True",
  "        return False",
  "    ",
  "    def stop(self) -> None:",
  "        \"\"\"Stop the car engine.\"\"\"",
  "        self.is_running = False",
  "    ",
  "    def drive(self, distance: float) -> bool:",
  "        \"\"\"Drive the car for a given distance.\"\"\"",
  "        if not self.is_running:",
  "            return False",
  "        ",
  "        fuel_needed = distance * 0.05  # 5% fuel per unit distance",
  "        if self.fuel_level >= fuel_needed:",
  "            self.mileage += distance",
  "            self.fuel_level -= fuel_needed",
  "            ",
  "            # Check if maintenance is due",
  "            if self.mileage > 10000:",
  "                self.maintenance_due = True",
  "            ",
  "            return True",
  "        return False",
  "    ",
  "    def refuel(self, amount: float) -> None:",
  "        \"\"\"Refuel the car.\"\"\"",
  "        self.fuel_level = min(100.0, self.fuel_level + amount)",
  "    ",
  "    def get_status(self) -> Dict[str, Any]:",
  "        \"\"\"Get current car status.\"\"\"",
  "        return \x7b",
  "            \"make\": self.make,",
  "            \"model\": self.model,",
  "            \"year\": self.year,",
  "            \"mileage\": self.mileage,",
  "            \"fuel_level\": self.fuel_level,",
  "            \"is_running\": self.is_running,",
  "            \"maintenance_due\": self.maintenance_due",
  "        \x7d",
  "",
  "",
  "class Motorcycle:",
  "    \"\"\"Motorcycle class with similar operations to Car.\"\"\"",
  "    ",
  "    def __init__(self, make: str, model: str, year: int, engine_size: int):",
  "        self.make = make",
  "        self.model = model",
  "        self.year = year",
  "        self.engine_size = engine_size",
  "        self.mileage = 0",
  "        self.fuel_level = 100.0",
  "        self.is_running = False",
  "        self.maintenance_due = False",
  "    ",
  "    def start(self) -> bool:",
  "        \"\"\"Start the motorcycle engine.\"\"\"",
  "        if self.fuel_level > 0:",
  "            self.is_running = True",
  "            return True",
  "        return False",
  "    ",
  "    def stop(self) -> None:",
  "        \"\"\"Stop the motorcycle engine.\"\"\"",
  "        self.is_running = False",
  "    ",
  "    def drive(self, distance: float) -> bool:",
  "        \"\"\"Drive the motorcycle for a given distance.\"\"\"",
  "        if not self.is_running:",
  "            return False",
  "        ",
  "        fuel_needed = distance * 0.03  # 3% fuel per unit distance (more efficient)",
  "        if self.fuel_level >= fuel_needed:",
  "            self.mileage += distance",
  "            self.fuel_level -= fuel_needed",
  "            ",
  "            # Check if maintenance is due",
  "            if self.mileage > 8000:",
  "                self.maintenance_due = True",
  "            ",
  "            return True",
  "        return False",
  "    ",
  "    def refuel(self, amount: float) -> None:",
  "        \"\"\"Refuel the motorcycle.\"\"\"",
  "        self.fuel_level = min(100.0, self.fuel_level + amount)",
  "    ",
  "    def get_status(self) -> Dict[str, Any]:",
  "        \"\"\"Get current motorcycle status.\"\"\"",
  "        return \x7b",
  "            \"make\": self.make,",
  "            \"model\": self.model,",
  "            \"year\": self.year,",
  "            \"engine_size\": self.engine_size,",
  "            \"mileage\": self.mileage,",
  "            \"fuel_level\": self.fuel_level,",
  "            \"is_running\": self.is_running,",
  "            \"maintenance_due\": self.maintenance_due",
  "        \x7d",
  "",
  "",
  "class Truck:",
  "    \"\"\"Truck class with cargo-specific operations.\"\"\"",
  "    ",
  "    def __init__(self, make: str, model: str, year: int, max_cargo: float):",
  "        self.make = make",
  "        self.model = model",
  "        self.year = year",
  "        self.max_cargo = max_cargo",
  "        self.current_cargo = 0.0",
  "        self.mileage = 0",
  "        self.fuel_level = 100.0",
  "        self.is_running = False",
  "        self.maintenance_due = False",
  "    ",
  "    def start(self) -> bool:",
  "        \"\"\"Start the truck engine.\"\"\"",
  "        if self.fuel_level > 0:",
  "            self.is_running = True",
  "            return True",
  "        return False",
  "    ",
  "    def stop(self) -> None:",
  "        \"\"\"Stop the truck engine.\"\"\"",
  "        self.is_running = False",
  "    ",
  "    def drive(self, distance: float) -> bool:",
  "        \"\"\"Drive the truck for a given distance.\"\"\"",
  "        if not self.is_running:",
  "            return False",
  "        ",
  "        # Fuel consumption depends on cargo load",
  "        cargo_factor = 1 + (self.current_cargo / self.max_cargo)",
  "        fuel_needed = distance * 0.08 * cargo_factor  # Base 8% fuel per unit distance",
  "        ",
  "        if self.fuel_level >= fuel_needed:",
  "            self.mileage += distance",
  "            self.fuel_level -= fuel_needed",
  "            ",
  "            # Check if maintenance is due",
  "            if self.mileage > 15000:",
  "                self.maintenance_due = True",
  "            ",
  "            return True",
  "        return False",
  "    ",
  "    def refuel(self, amount: float) -> None:",
  "        \"\"\"Refuel the truck.\"\"\"",
  "        self.fuel_level = min(100.0, self.fuel_level + amount)",
  "    ",
  "    def load_cargo(self, weight: float) -> bool:",
  "        \"\"\"Load cargo onto the truck.\"\"\"",
  "        if self.current_cargo + weight <= self.max_cargo:",
  "            self.current_cargo += weight",
  "            return True",
  "        return False",
  "    ",
  "    def unload_cargo(self, weight: float) -> bool:",
  "        \"\"\"Unload cargo from the truck.\"\"\"",
  "        if weight <= self.current_cargo:",
  "            self.current_cargo -= weight",
  "            return True",
  "        return False",
  "    ",
  "    def get_status(self) -> Dict[str, Any]:",
  "        \"\"\"Get current truck status.\"\"\"",
  "        return \x7b",
  "            \"make\": self.make,",
  "            \"model\": self.model,",
  "            \"year\": self.year,",
  "            \"max_cargo\": self.max_cargo,",
  "            \"current_cargo\": self.current_cargo,",
  "            \"mileage\": self.mileage,",
  "            \"fuel_level\": self.fuel_level,",
  "            \"is_running\": self.is_running,",
  "            \"maintenance_due\": self.maintenance_due",
  "        \x7d",
  "",
  "",
  "class ElectricCar:",
  "    \"\"\"Electric car with battery-specific operations.\"\"\"",
  "    ",
  "    def __init__(self, make: str, model: str, year: int, battery_capacity: float):",
  "        self.make = make",
  "        self.model = model",
  "        self.year = year",
  "        self.battery_capacity = battery_capacity",
  "        self.battery_level = 100.0",
  "        self.mileage = 0",
  "        self.is_running = False",
  "        self.maintenance_due = False",
  "    ",
  "    def start(self) -> bool:",
  "        \"\"\"Start the electric car.\"\"\"",
  "        if self.battery_level > 0:",
  "            self.is_running = True",
  "            return True",
  "        return False",
  "    ",
  "    def stop(self) -> None:",
  "        \"\"\"Stop the electric car.\"\"\"",
  "        self.is_running = False",
  "    ",
  "    def drive(self, distance: float) -> bool:",
  "        \"\"\"Drive the electric car for a given distance.\"\"\"",
  "        if not self.is_running:",
  "            return False",
  "        ",
  "        battery_needed = distance * 0.02  # 2% battery per unit distance",
  "        if self.battery_level >= battery_needed:",
  "            self.mileage += distance",
  "            self.battery_level -= battery_needed",
  "            ",
  "            # Check if maintenance is due",
  "            if self.mileage > 12000:",
  "                self.maintenance_due = True",
  "            ",
  "            return True",
  "        return False",
  "    ",
  "    def charge(self, amount: float) -> None:",
  "        \"\"\"Charge the electric car battery.\"\"\"",
  "        self.battery_level = min(100.0, self.battery_level + amount)",
  "    ",
  "    def get_status(self) -> Dict[str, Any]:",
  "        \"\"\"Get current electric car status.\"\"\"",
  "        return \x7b",
  "            \"make\": self.make,",
  "            \"model\": self.model,",
  "            \"year\": self.year,",
  "            \"battery_capacity\": self.battery_capacity,",
  "            \"battery_level\": self.battery_level,",
  "            \"mileage\": self.mileage,",
  "            \"is_running\": self.is_running,",
  "            \"maintenance_due\": self.maintenance_due",
  "        \x7d",
  "",
  "",
  "# Fleet management functions",
  "def create_fleet():",
  "    \"\"\"Create a sample fleet of vehicles.\"\"\"",
  "    return [",
  "        Car(\"Toyota\", \"Camry\", 2020),",
  "        Motorcycle(\"Honda\", \"CBR600RR\", 2021, 600),",
  "        Truck(\"Ford\", \"F-150\", 2019, 1000.0),",
  "        ElectricCar(\"Tesla\", \"Model 3\", 2022, 75.0)",
  "    ]",
  "",
  "",
  "def start_all_vehicles(fleet):",
  "    \"\"\"Start all vehicles in the fleet.\"\"\"",
  "    results = []",
  "    for vehicle in fleet:",
  "        if vehicle.start():",
  "            results.append(f\"\x7bvehicle.make\x7d \x7bvehicle.model\x7d started successfully\")",
  "        else:",
  "            results.append(f\"\x7bvehicle.make\x7d \x7bvehicle.model\x7d failed to start\")",
  "    return results"]

def whitespaceExpected : List String := [
  "def calculate_result(x, y):  ",
  "    \"\"\"Calculate result with trailing whitespace and inconsistent indentation.\"\"\"",
  "    ",
  "    # Added validation",
  "    if not isinstance(x, (int, float)) or not isinstance(y, (int, float)):",
  "        raise ValueError(\"Both x and y must be numbers\")",
  "    ",
  "    if x > 0:",
  "        result = x + y",
  "    else:",
  "      result = x - y  ",
  "    ",
  "    # Some comment with trailing space  ",
  "    ",
  "    return result",
  "",
  "",
  "def process_data(items):",
  "\t\"\"\"Process data with mixed tabs and spaces for indentation.\"\"\"",
  "        ",
  "\ttotal = 0",
  "  for item in items:  ",
  "\t\tif item > 10:",
  "            total += item * 2",
  "        else:",
  "\t\t\ttotal += item",
  "            ",
  "    ",
  "\treturn total  ",
  "",
  "",
  "def main():",
  "    print(\"Starting calculation\")  ",
  "    ",
  "    data = [1, 15, 8, 25]    ",
  "    result = process_data(data)",
  "    ",
  "    ",
  "    final = calculate_result(result, 5)",
  "    print(f\"Final result: \x7bfinal\x7d\")",
  "",
  "",
  "if __name__ == \"__main__\":",
  "    main()"]

def importHunk : Hunk :=
  { pre_context := []
    old_lines := ["import sys"]
    post_context := []
    new_lines := ["import sys", "import json", "import logging"] }

def loadConfigHunk : Hunk :=
  { pre_context := ["    def load_config(self) -> Dict:", "        \"\"\"Load configuration from file.\"\"\""]
    old_lines :=
      ["        if not os.path.exists(self.config_path):",
       "            raise FileNotFoundError(f\"Config file not found: \x7bself.config_path\x7d\")",
       "        ",
       "        with open(self.config_path, 'r') as f:",
       "            return eval(f.read())  # Simple eval for demo"]
    post_context := []
    new_lines :=
      ["        if not os.path.exists(self.config_path):",
       "            logging.error(f\"Config file not found: \x7bself.config_path\x7d\")",
       "            raise FileNotFoundError(f\"Config file not found: \x7bself.config_path\x7d\")",
       "        ",
       "        with open(self.config_path, 'r') as f:",
       "            # Use json.load instead of eval for security",
       "            return json.load(f)"]  }

def methodsHunk : Hunk :=
  { pre_context := []
    old_lines := ["        \x7d", "", "if __name__ == \"__main__\":"]
    post_context := []
    new_lines :=
      ["        \x7d",
       "",
       "    def reset_stats(self) -> None:",
       "        \"\"\"Reset processing statistics.\"\"\"",
       "        self.processed_count = 0",
       "        self.data.clear()",
       "        logging.info(\"Statistics reset\")",
       "    ",
       "    def validate_data(self, items: List[str]) -> bool:",
       "        \"\"\"Validate input data before processing.\"\"\"",
       "        return all(isinstance(item, str) for item in items)",
       "",
       "if __name__ == \"__main__\":"] }

def complexHunks : List Hunk := [importHunk, loadConfigHunk, methodsHunk]

/-- The four raw body lines shared by the `start` methods of `Car`,
`Motorcycle` and `Truck` in the vehicles fixture. -/
def startBody : List String :=
  ["        if self.fuel_level > 0:",
   "            self.is_running = True",
   "            return True",
   "        return False"]

/-- Replacement body used by the vehicles-fixture hunks below. -/
def carNewBody : List String :=
  ["        if self.fuel_level > 0:",
   "            self.is_running = True",
   "            self.mileage += 0",
   "            return True",
   "        return False"]

/-- Modelled from the spec: §8 — a hunk on the vehicles fixture whose anchor
context (`def start(self) -> bool:`) contains no line distinguishing the
enclosing classes. -/
def ambiguousHunk : Hunk :=
  { pre_context := ["    def start(self) -> bool:"]
    old_lines := startBody
    post_context := []
    new_lines := carNewBody }

/-- Modelled from the spec: §8 — the same hunk with the distinguishing
docstring line of `Car.start` added to the anchor context. -/
def carHunk : Hunk :=
  { pre_context := ["    def start(self) -> bool:", "        \"\"\"Start the car engine.\"\"\""]
    old_lines := startBody
    post_context := []
    new_lines := carNewBody }

/-- Acceptance threshold of §4.3 stated on a rational score: at least 0.8 for
windows of length ≥ 3, exactly 1 for windows of length 1–2. -/
def acceptScore (m : Nat) (q : ℚ) : Prop :=
  if 3 ≤ m then (4 : ℚ) / 5 ≤ q else q = 1

/-- A small concrete tree used by the closed witness statements. -/
def sampleTree : FileTree :=
  fun q => if q = "a.py" then some "x = 1\ny = 2" else none

/-- A small concrete hunk used by the closed witness statements: replaces the
line `y = 2` (written with drifted whitespace) of `a.py`. -/
def sampleHunk : Hunk :=
  { pre_context := []
    old_lines := ["y  =  2  "]
    post_context := []
    new_lines := ["y = 3"] }

/-- The disambiguator accepts a sole candidate unchanged. -/
theorem resolve_singleton (file pre post : List String) (prevEnd : Option Nat)
    (c : MatchCandidate) : resolve file pre post prevEnd [c] = .ok c := by
  simp [resolve]

/-- `mkRat` on naturals is plain division of rationals. -/
theorem mkRat_nat_div (a b : Nat) : mkRat (a : Int) b = (a : ℚ) / (b : ℚ) := by
  rw [Rat.mkRat_eq_div]
  norm_num

/-- A window never scores above full fuzzy equality. -/
theorem countFuzzy_le (file old : List String) (s : Nat) :
    countFuzzy file old s ≤ old.length := by
  unfold countFuzzy
  calc (List.range old.length).countP _ ≤ (List.range old.length).length :=
        List.countP_le_length _
    _ = old.length := List.length_range _

/-- If all positions of a window are fuzzily equal, the fuzzy count is full. -/
theorem countFuzzy_eq_length (file old : List String) (s : Nat)
    (h : ∀ i, i < old.length → fuzzyEq (file.getD (s + i) "") (old.getD i "") = true) :
    countFuzzy file old s = old.length := by
  unfold countFuzzy
  rw [List.countP_eq_length.mpr, List.length_range]
  intro i hi
  exact h i (List.mem_range.mp hi)

/-- A full fuzzy count passes the acceptance threshold at every window length. -/
theorem passesThreshold_full (m : Nat) : passesThreshold m m = true := by
  unfold passesThreshold
  split <;> simp
  omega

/-- A window reaching full fuzzy equality qualifies whenever it fits. -/
theorem qualifies_of_fuzzy_all (file old : List String) (s : Nat)
    (hfit : s + old.length ≤ file.length)
    (h : ∀ i, i < old.length → fuzzyEq (file.getD (s + i) "") (old.getD i "") = true) :
    qualifies file old s = true := by
  unfold qualifies
  rw [countFuzzy_eq_length file old s h, passesThreshold_full]
  simp [hfit]

/-- A window that does not fit in the file never qualifies. -/
theorem qualifies_false_of_overflow (file old : List String) (s : Nat)
    (hfit : ¬ s + old.length ≤ file.length) : qualifies file old s = false := by
  unfold qualifies
  simp [hfit]

/-- A filter retaining exactly one element of a duplicate-free list. -/
theorem filter_eq_singleton_of_nodup {l : List Nat} {p : Nat → Bool} {s : Nat}
    (hnd : l.Nodup) (hmem : s ∈ l) (hp : p s = true)
    (huniq : ∀ x ∈ l, p x = true → x = s) :
    l.filter p = [s] := by
  induction l with
  | nil => cases hmem
  | cons a t ih =>
    rcases List.nodup_cons.mp hnd with ⟨hna, hndt⟩
    rcases List.mem_cons.mp hmem with rfl | hmt
    · rw [List.filter_cons_of_pos hp]
      have : t.filter p = [] := by
        rw [List.filter_eq_nil_iff]
        intro x hx hpx
        exact hna ((huniq x (List.mem_cons_of_mem _ hx) hpx) ▸ hx)
      rw [this]
    · have hpa : p a = false := by
        cases hq : p a with
        | false => rfl
        | true =>
          exact absurd (huniq a (List.mem_cons_self _ _) hq ▸ hmt) hna
      rw [List.filter_cons_of_neg (by simp [hpa])]
      exact ih hndt hmt fun x hx hpx => huniq x (List.mem_cons_of_mem _ hx) hpx

/-- When exactly one window start qualifies, the matcher returns exactly that
window. -/
theorem bestByScore_singleton (c : MatchCandidate) : bestByScore [c] = [c] := by
  simp [bestByScore]

theorem bestByOverlap_singleton (c : MatchCandidate) : bestByOverlap [c] = [c] := by
  simp [bestByOverlap]

theorem find_candidates_of_singleton (file old : List String) (s : Nat)
    (h : qualifyingStarts file old = [s]) :
    find_candidates file old = [windowCandidate file old s] := by
  unfold find_candidates
  rw [h]
  simp only [List.map_cons, List.map_nil, bestByScore_singleton, bestByOverlap_singleton]

theorem resolve_nil (file pre post : List String) (prevEnd : Option Nat) :
    resolve file pre post prevEnd [] = .error .NoMatch := by
  simp [resolve]

/-- If position `s` qualifies and is the only qualifying position below the
file length, it is the only retained window start. -/
theorem qualifyingStarts_eq_singleton (file old : List String) (s : Nat)
    (hne : old ≠ [])
    (hq : qualifies file old s = true)
    (huniq : ∀ x, x < file.length → qualifies file old x = true → x = s) :
    qualifyingStarts file old = [s] := by
  have hm : 0 < old.length := List.length_pos.mpr hne
  have hfit : s + old.length ≤ file.length := by
    by_contra hnfit
    rw [qualifies_false_of_overflow file old s hnfit] at hq
    cases hq
  apply filter_eq_singleton_of_nodup (List.nodup_range _)
  · exact List.mem_range.mpr (by omega)
  · exact hq
  · intro x hx hqx
    have hxfit : x + old.length ≤ file.length := by
      by_contra hnfit
      rw [qualifies_false_of_overflow file old x hnfit] at hqx
      cases hqx
    exact huniq x (by omega) hqx

/-- Exact raw equality of a window implies fuzzy equality position by
position. -/
theorem fuzzyEq_of_eq {a b : String} (h : a = b) : fuzzyEq a b = true := by
  subst h
  simp [fuzzyEq]

/-- Applying a hunk whose `old_lines` occupy the unique qualifying window
replaces exactly that span with `new_lines`. -/
theorem applyHunk_unique_window (file : List String) (h : Hunk) (prevEnd : Option Nat) (s : Nat)
    (hne : h.old_lines ≠ [])
    (hstarts : qualifyingStarts file h.old_lines = [s]) :
    applyHunk file h prevEnd =
      .ok (spliceLines file s (s + h.old_lines.length) h.new_lines,
           s + h.new_lines.length) := by
  have hfc := find_candidates_of_singleton file h.old_lines s hstarts
  have hempty : h.old_lines.isEmpty = false := by
    cases hh : h.old_lines with
    | nil => exact absurd hh hne
    | cons a t => rfl
  unfold applyHunk
  rw [hempty]
  simp only [Bool.false_eq_true, if_false, hfc,
    resolve_singleton, windowCandidate]

/-- A hunk with no qualifying window fails with `NoMatch`. -/
theorem applyHunk_noMatch (file : List String) (h : Hunk) (prevEnd : Option Nat)
    (hne : h.old_lines ≠ [])
    (habsent : ∀ s, s < file.length → qualifies file h.old_lines s = false) :
    applyHunk file h prevEnd = .error .NoMatch := by
  have hm : 0 < h.old_lines.length := List.length_pos.mpr hne
  have hstarts : qualifyingStarts file h.old_lines = [] := by
    unfold qualifyingStarts
    rw [List.filter_eq_nil_iff]
    intro x hx
    have hxr := List.mem_range.mp hx
    by_cases hfit : x + h.old_lines.length ≤ file.length
    · rw [habsent x (by omega)]
      simp
    · rw [qualifies_false_of_overflow file h.old_lines x hfit]
      simp
  have hempty : h.old_lines.isEmpty = false := by
    cases hh : h.old_lines with
    | nil => exact absurd hh hne
    | cons a t => rfl
  have hfc : find_candidates file h.old_lines = [] := by
    unfold find_candidates
    rw [hstarts]
    rfl
  unfold applyHunk
  rw [hempty]
  simp only [Bool.false_eq_true, if_false, hfc, resolve_nil]

/-- A successfully applied hunk writes `new_lines` verbatim between a prefix
and a suffix of the previous file lines. -/
theorem applyHunk_ok_splice (file : List String) (h : Hunk) (prevEnd : Option Nat)
    (out : List String × Nat)
    (hne : h.old_lines ≠ [])
    (hok : applyHunk file h prevEnd = .ok out) :
    ∃ s e, out.1 = file.take s ++ h.new_lines ++ file.drop e := by
  have hempty : h.old_lines.isEmpty = false := by
    cases hh : h.old_lines with
    | nil => exact absurd hh hne
    | cons a t => rfl
  unfold applyHunk at hok
  rw [hempty] at hok
  simp only [Bool.false_eq_true, if_false] at hok
  cases hres : resolve file h.pre_context h.post_context prevEnd
      (find_candidates file h.old_lines) with
  | error e => rw [hres] at hok; cases hok
  | ok c =>
    rw [hres] at hok
    refine ⟨c.start_line, c.end_line, ?_⟩
    cases hok
    rfl

/-- An operation leaves every path it does not touch exactly as it was. -/
theorem applyOperation_untouched (t : FileTree) (op : Operation) (p : String)
    (h : opTouches op p = false) :
    (applyOperation t op).tree p = t p := by
  cases op with
  | update tp hunks =>
    have hne : p ≠ tp := by simpa [opTouches] using h
    cases ht : t tp with
    | none => simp [applyOperation, ht]
    | some content =>
      cases hp : processHunks (splitLines content) hunks none with
      | error e => simp [applyOperation, ht, hp]
      | ok nl => simp [applyOperation, ht, hp, write_file, hne]
  | add tp content =>
    have hne : p ≠ tp := by simpa [opTouches] using h
    cases ht : t tp with
    | none => simp [applyOperation, ht, write_file, hne]
    | some c => simp [applyOperation, ht]
  | delete tp =>
    have hne : p ≠ tp := by simpa [opTouches] using h
    cases ht : t tp with
    | none => simp [applyOperation, ht]
    | some c => simp [applyOperation, ht, remove_file, hne]
  | move sp tp =>
    have hne : p ≠ sp ∧ p ≠ tp := by
      constructor <;> · simp [opTouches] at h; tauto
    cases ht : t sp with
    | none => simp [applyOperation, ht]
    | some c =>
      cases ht2 : t tp with
      | some d => simp [applyOperation, ht, ht2]
      | none =>
        simp [applyOperation, ht, ht2, write_file, remove_file, hne.1, hne.2]

/-- The boolean acceptance test agrees with the rational-score threshold of
§4.3: ≥ 0.8 for windows of length ≥ 3, exactly 1 for lengths 1–2. -/
theorem passesThreshold_iff_acceptScore (m cnt : Nat) (hm : 0 < m) (hcnt : cnt ≤ m) :
    passesThreshold m cnt = true ↔ acceptScore m (mkRat cnt m) := by
  unfold passesThreshold acceptScore
  rw [mkRat_nat_div]
  have hmq : (0 : ℚ) < (m : ℚ) := by exact_mod_cast hm
  by_cases h3 : 3 ≤ m
  · rw [if_pos h3, if_pos h3, decide_eq_true_eq]
    rw [div_le_div_iff₀ (by norm_num) hmq]
    constructor
    · intro hle
      have : ((4 * m : Nat) : ℚ) ≤ ((5 * cnt : Nat) : ℚ) := by exact_mod_cast hle
      push_cast at this ⊢
      linarith
    · intro hle
      have : ((4 * m : Nat) : ℚ) ≤ ((cnt * 5 : Nat) : ℚ) := by push_cast; linarith
      have := (Nat.cast_le (α := ℚ)).mp this
      omega
  · rw [if_neg h3, if_neg h3, decide_eq_true_eq]
    constructor
    · intro he
      subst he
      exact div_self (ne_of_gt hmq)
    · intro hd
      have : (cnt : ℚ) = (m : ℚ) := by
        have := (div_eq_one_iff_eq (ne_of_gt hmq)).mp hd
        exact_mod_cast this
      exact_mod_cast this

/-- A position qualifies exactly when its window fits and its candidate's
score reaches the acceptance threshold. -/
theorem qualifies_iff_acceptScore (file old : List String) (s : Nat) (hm : 0 < old.length) :
    qualifies file old s = true ↔
      (s + old.length ≤ file.length ∧
       acceptScore old.length (windowCandidate file old s).score) := by
  unfold qualifies windowCandidate
  rw [Bool.and_eq_true, decide_eq_true_eq]
  simp only []
  rw [passesThreshold_iff_acceptScore old.length (countFuzzy file old s) hm
    (countFuzzy_le file old s)]

/-- A candidate is produced by the matcher exactly when it is a window of
`file` (start position bound by the file length). -/
theorem mem_matcher_pool_iff (file old : List String)
    (c : MatchCandidate) :
    c ∈ (qualifyingStarts file old).map (windowCandidate file old) ↔
      ∃ s, c = windowCandidate file old s ∧ qualifies file old s = true := by
  rw [List.mem_map]
  constructor
  · rintro ⟨s, hs, rfl⟩
    have hq := (List.mem_filter.mp hs).2
    exact ⟨s, rfl, hq⟩
  · rintro ⟨s, rfl, hq⟩
    refine ⟨s, ?_, rfl⟩
    rw [qualifyingStarts, List.mem_filter]
    refine ⟨?_, hq⟩
    have hfit : s + old.length ≤ file.length := by
      by_contra hnfit
      rw [qualifies_false_of_overflow file old s hnfit] at hq
      cases hq
    exact List.mem_range.mpr (by omega)

/-- Membership in the score-maximal sublist. -/
theorem mem_bestByScore_iff (qs : List MatchCandidate) (c : MatchCandidate) :
    c ∈ bestByScore qs ↔ (c ∈ qs ∧ ∀ d ∈ qs, d.score ≤ c.score) := by
  unfold bestByScore
  rw [List.mem_filter, List.all_eq_true]
  constructor
  · rintro ⟨h1, h2⟩
    exact ⟨h1, fun d hd => of_decide_eq_true (h2 d hd)⟩
  · rintro ⟨h1, h2⟩
    exact ⟨h1, fun d hd => decide_eq_true (h2 d hd)⟩

/-- Membership in the overlap-maximal sublist. -/
theorem mem_bestByOverlap_iff (qs : List MatchCandidate) (c : MatchCandidate) :
    c ∈ bestByOverlap qs ↔ (c ∈ qs ∧ ∀ d ∈ qs, d.exact_overlap ≤ c.exact_overlap) := by
  unfold bestByOverlap
  rw [List.mem_filter, List.all_eq_true]
  constructor
  · rintro ⟨h1, h2⟩
    exact ⟨h1, fun d hd => of_decide_eq_true (h2 d hd)⟩
  · rintro ⟨h1, h2⟩
    exact ⟨h1, fun d hd => decide_eq_true (h2 d hd)⟩

/-- Membership in the matcher's final candidate list: a qualifying window that
is lexicographically maximal in (score, exact overlap) among all qualifying
windows. -/
theorem mem_find_candidates_iff (file old : List String) (c : MatchCandidate) :
    c ∈ find_candidates file old ↔
      ((∃ s, c = windowCandidate file old s ∧ qualifies file old s = true) ∧
       ∀ s', qualifies file old s' = true →
         ((windowCandidate file old s').score < c.score ∨
          ((windowCandidate file old s').score = c.score ∧
           (windowCandidate file old s').exact_overlap ≤ c.exact_overlap))) := by
  unfold find_candidates
  set qs := (qualifyingStarts file old).map (windowCandidate file old) with hqs
  rw [mem_bestByOverlap_iff]
  constructor
  · rintro ⟨hbest, hov⟩
    rcases (mem_bestByScore_iff qs c).mp hbest with ⟨hpool, hsc⟩
    refine ⟨(mem_matcher_pool_iff file old c).mp hpool, ?_⟩
    intro s' hq'
    have hd : windowCandidate file old s' ∈ qs :=
      (mem_matcher_pool_iff file old _).mpr ⟨s', rfl, hq'⟩
    rcases lt_or_eq_of_le (hsc _ hd) with hlt | heq
    · exact Or.inl hlt
    · refine Or.inr ⟨heq, ?_⟩
      refine hov _ ((mem_bestByScore_iff qs _).mpr ⟨hd, ?_⟩)
      intro e he
      exact le_of_le_of_eq (hsc e he) heq.symm
  · rintro ⟨⟨s, rfl, hq⟩, hmax⟩
    have hpool : windowCandidate file old s ∈ qs :=
      (mem_matcher_pool_iff file old _).mpr ⟨s, rfl, hq⟩
    have hscmax : ∀ d ∈ qs, d.score ≤ (windowCandidate file old s).score := by
      intro d hd
      rcases (mem_matcher_pool_iff file old d).mp hd with ⟨s', rfl, hq'⟩
      rcases hmax s' hq' with hlt | ⟨heq, _⟩
      · exact le_of_lt hlt
      · exact le_of_eq heq
    refine ⟨(mem_bestByScore_iff qs _).mpr ⟨hpool, hscmax⟩, ?_⟩
    intro d hdbest
    rcases (mem_bestByScore_iff qs d).mp hdbest with ⟨hdpool, hdsc⟩
    rcases (mem_matcher_pool_iff file old d).mp hdpool with ⟨s', rfl, hq'⟩
    rcases hmax s' hq' with hlt | ⟨_, hovle⟩
    · exact absurd (hdsc _ hpool) (not_le_of_lt hlt)
    · exact hovle

/-- Exact raw window equality stated through `fuzzyEq` on identical strings. -/
theorem fuzzyEq_of_tokens_eq {a b : String} (h : tokens a = tokens b) :
    fuzzyEq a b = true := by
  unfold fuzzyEq normalizeLine
  rw [h]
  exact beq_self_eq_true _

/-- The complex-update patch applied to the template fixture yields exactly
the expected fixture. -/
theorem complexFirstRun :
    processHunks complexTemplate complexHunks none = .ok complexExpected := by
  rfl

/-- The complex-update patch applied a second time (to the expected fixture)
fails with `NoMatch`. -/
theorem complexSecondRun :
    processHunks complexExpected complexHunks none = .error .NoMatch := by
  rfl

/-- The vehicles hunk without class-distinguishing anchor context is
ambiguous. -/
theorem vehiclesAmbiguous :
    applyHunk vehiclesFile ambiguousHunk none = .error .AmbiguousMatch := by
  rfl

/-- The vehicles hunk anchored by the Car docstring resolves to Car's `start`
body only. -/
theorem vehiclesCarResolved :
    applyHunk vehiclesFile carHunk none =
      .ok (spliceLines vehiclesFile 23 27 carNewBody, 28) := by
  rfl

/-- C1: Applying an Update whose hunk's `old_lines` exactly (not merely
fuzzily) match a contiguous span that is the unique qualifying window produces
exactly the file with that span replaced by `new_lines` and no other line
changed; in particular, applying the complex-update patch (logging.error call
added, eval replaced by json.load, imports and the reset_stats/validate_data
methods inserted) to the template fixture yields content equal to the expected
fixture. -/
theorem exact_match_update_applies :
    (∀ (file : List String) (h : Hunk) (prevEnd : Option Nat) (s : Nat),
        h.old_lines ≠ [] →
        s + h.old_lines.length ≤ file.length →
        (∀ i, i < h.old_lines.length → file.getD (s + i) "" = h.old_lines.getD i "") →
        (∀ x, x < file.length → qualifies file h.old_lines x = true → x = s) →
        applyHunk file h prevEnd =
          .ok (spliceLines file s (s + h.old_lines.length) h.new_lines,
               s + h.new_lines.length)) ∧
    processHunks complexTemplate complexHunks none = .ok complexExpected := by
  constructor
  · intro file h prevEnd s hne hfit hexact huniq
    have hq : qualifies file h.old_lines s = true :=
      qualifies_of_fuzzy_all file h.old_lines s hfit
        (fun i hi => fuzzyEq_of_eq (hexact i hi))
    exact applyHunk_unique_window file h prevEnd s hne
      (qualifyingStarts_eq_singleton file h.old_lines s hne hq huniq)
  · exact complexFirstRun

/-- Witness for C1's general conjunct at a concrete three-line file. -/
theorem exact_match_update_applies_witness :
    applyHunk ["a", "b", "c"] ⟨[], ["b"], [], ["B", "B2"]⟩ none =
      .ok (spliceLines ["a", "b", "c"] 1 2 ["B", "B2"], 3) :=
  exact_match_update_applies.1 ["a", "b", "c"] ⟨[], ["b"], [], ["B", "B2"]⟩ none 1
    (by decide) (by decide) (by decide) (by decide)

/-- C2: For every patch and every file whose path is the target (or Move
source) of no Operation in that patch, the file's content after the whole
patch run is identical to its content before the run. -/
theorem untouched_files_preserved (ops : List Operation) (t : FileTree) (p : String)
    (h : ∀ op ∈ ops, opTouches op p = false) :
    runPatch ops t p = t p := by
  induction ops generalizing t with
  | nil => rfl
  | cons op rest ih =>
    have h1 := h op (List.mem_cons_self _ _)
    have h2 : ∀ o ∈ rest, opTouches o p = false :=
      fun o ho => h o (List.mem_cons_of_mem _ ho)
    show runPatch rest (applyOperation t op).tree p = t p
    rw [ih (applyOperation t op).tree h2, applyOperation_untouched t op p h1]

/-- Witness for C2 at a concrete patch of all four operation kinds. -/
theorem untouched_files_preserved_witness :
    runPatch [Operation.add "b.py" "z = 1", Operation.delete "c.py",
        Operation.move "d.py" "e.py", Operation.update "f.py" [sampleHunk]]
      sampleTree "a.py" = sampleTree "a.py" :=
  untouched_files_preserved _ sampleTree "a.py" (by decide)

/-- C3: On the vehicles fixture, whose `Car.start` and `Motorcycle.start`
bodies are raw-identical, the Update hunk whose anchor context contains no
class-distinguishing line fails with `AmbiguousMatch`, while the hunk whose
anchor context carries the Car docstring applies the replacement to Car's
`start` span (lines 23–27, 0-based) only, leaving every other line intact. -/
theorem vehicles_ambiguity_and_disambiguation :
    applyHunk vehiclesFile ambiguousHunk none = .error .AmbiguousMatch ∧
    applyHunk vehiclesFile carHunk none =
      .ok (spliceLines vehiclesFile 23 27 carNewBody, 28) :=
  ⟨vehiclesAmbiguous, vehiclesCarResolved⟩

/-- C4: Per-file Update is all-or-nothing: on any hunk failure the tree is
unchanged and no `write_file` call is made; on success `write_file` is called
exactly once, with the fully patched content. -/
theorem update_write_all_or_nothing :
    (∀ (t : FileTree) (p : String) (hunks : List Hunk) (content : String) (e : PatchError),
        t p = some content →
        processHunks (splitLines content) hunks none = .error e →
        applyOperation t (.update p hunks) = ⟨t, [], .error e⟩) ∧
    (∀ (t : FileTree) (p : String) (hunks : List Hunk) (content : String) (nl : List String),
        t p = some content →
        processHunks (splitLines content) hunks none = .ok nl →
        applyOperation t (.update p hunks) =
          ⟨write_file t p (String.intercalate "\n" nl),
           [(p, String.intercalate "\n" nl)], .ok ()⟩) := by
  constructor
  · intro t p hunks content e hread hproc
    simp [applyOperation, hread, hproc]
  · intro t p hunks content nl hread hproc
    simp [applyOperation, hread, hproc]

/-- Witness for C4's success conjunct on a concrete two-line file. -/
theorem update_write_all_or_nothing_witness :
    applyOperation sampleTree (.update "a.py" [sampleHunk]) =
      ⟨write_file sampleTree "a.py" (String.intercalate "\n" ["x = 1", "y = 3"]),
       [("a.py", String.intercalate "\n" ["x = 1", "y = 3"])], .ok ()⟩ :=
  update_write_all_or_nothing.2 sampleTree "a.py" [sampleHunk] "x = 1\ny = 2"
    ["x = 1", "y = 3"] (by rfl) (by rfl)

/-- C5: A hunk whose `old_lines` differ from the file's span only in
whitespace (identical token sequences) scores 1.0 and qualifies, and whatever
a successful hunk writes is its `new_lines` verbatim between untouched
surrounding lines — no normalization is applied to written content. -/
theorem whitespace_drift_matches_and_writes_verbatim :
    (∀ (file old : List String) (s : Nat),
        old ≠ [] →
        s + old.length ≤ file.length →
        (∀ i, i < old.length → tokens (file.getD (s + i) "") = tokens (old.getD i "")) →
        ((windowCandidate file old s).score = 1 ∧ qualifies file old s = true)) ∧
    (∀ (file : List String) (h : Hunk) (prevEnd : Option Nat) (out : List String × Nat),
        h.old_lines ≠ [] →
        applyHunk file h prevEnd = .ok out →
        ∃ s e, out.1 = file.take s ++ h.new_lines ++ file.drop e) := by
  constructor
  · intro file old s hne hfit htok
    have hfz : ∀ i, i < old.length →
        fuzzyEq (file.getD (s + i) "") (old.getD i "") = true :=
      fun i hi => fuzzyEq_of_tokens_eq (htok i hi)
    refine ⟨?_, qualifies_of_fuzzy_all file old s hfit hfz⟩
    show mkRat (countFuzzy file old s) old.length = 1
    rw [countFuzzy_eq_length file old s hfz, mkRat_nat_div]
    exact div_self (by exact_mod_cast (List.length_pos.mpr hne).ne')
  · exact applyHunk_ok_splice

/-- Witness for C5's matching conjunct at a tab-versus-space drifted line. -/
theorem whitespace_drift_matches_witness :
    (windowCandidate ["\tx = 1  ", "return y"] ["    x  =  1"] 0).score = 1 ∧
    qualifies ["\tx = 1  ", "return y"] ["    x  =  1"] 0 = true :=
  whitespace_drift_matches_and_writes_verbatim.1
    ["\tx = 1  ", "return y"] ["    x  =  1"] 0 (by decide) (by decide) (by decide)

/-- C6: `find_candidates` returns exactly the length-`old.length` windows of
`file` whose score — the fuzzy-equal position count divided by `old.length` —
is at least the acceptance threshold (0.8 for length ≥ 3, exactly 1 for
lengths 1–2), with ties in score broken by the `exact_overlap` count and any
remaining ties returned as multiple candidates. -/
theorem find_candidates_exact_characterization (file old : List String)
    (hne : old ≠ []) (c : MatchCandidate) :
    (∀ s, (windowCandidate file old s).score =
        (countFuzzy file old s : ℚ) / (old.length : ℚ)) ∧
    (c ∈ find_candidates file old ↔
      ((∃ s, c = windowCandidate file old s ∧ s + old.length ≤ file.length ∧
          acceptScore old.length c.score) ∧
       ∀ s', s' + old.length ≤ file.length →
         acceptScore old.length (windowCandidate file old s').score →
         ((windowCandidate file old s').score < c.score ∨
          ((windowCandidate file old s').score = c.score ∧
           (windowCandidate file old s').exact_overlap ≤ c.exact_overlap)))) := by
  have hm : 0 < old.length := List.length_pos.mpr hne
  constructor
  · intro s
    exact mkRat_nat_div _ _
  · rw [mem_find_candidates_iff]
    constructor
    · rintro ⟨⟨s, rfl, hq⟩, hmax⟩
      rcases (qualifies_iff_acceptScore file old s hm).mp hq with ⟨hfit, hacc⟩
      refine ⟨⟨s, rfl, hfit, hacc⟩, ?_⟩
      intro s' hfit' hacc'
      exact hmax s' ((qualifies_iff_acceptScore file old s' hm).mpr ⟨hfit', hacc'⟩)
    · rintro ⟨⟨s, rfl, hfit, hacc⟩, hmax⟩
      refine ⟨⟨s, rfl, (qualifies_iff_acceptScore file old s hm).mpr ⟨hfit, hacc⟩⟩, ?_⟩
      intro s' hq'
      rcases (qualifies_iff_acceptScore file old s' hm).mp hq' with ⟨hfit', hacc'⟩
      exact hmax s' hfit' hacc'

/-- Witness for C6 at a concrete two-line file and single-line window. -/
theorem find_candidates_exact_characterization_witness :
    (∀ s, (windowCandidate ["a", "b"] ["b"] s).score =
        (countFuzzy ["a", "b"] ["b"] s : ℚ) / ((["b"] : List String).length : ℚ)) ∧
    (windowCandidate ["a", "b"] ["b"] 1 ∈ find_candidates ["a", "b"] ["b"] ↔
      ((∃ s, windowCandidate ["a", "b"] ["b"] 1 = windowCandidate ["a", "b"] ["b"] s ∧
          s + (["b"] : List String).length ≤ (["a", "b"] : List String).length ∧
          acceptScore (["b"] : List String).length (windowCandidate ["a", "b"] ["b"] 1).score) ∧
       ∀ s', s' + (["b"] : List String).length ≤ (["a", "b"] : List String).length →
         acceptScore (["b"] : List String).length (windowCandidate ["a", "b"] ["b"] s').score →
         ((windowCandidate ["a", "b"] ["b"] s').score <
            (windowCandidate ["a", "b"] ["b"] 1).score ∨
          ((windowCandidate ["a", "b"] ["b"] s').score =
             (windowCandidate ["a", "b"] ["b"] 1).score ∧
           (windowCandidate ["a", "b"] ["b"] s').exact_overlap ≤
             (windowCandidate ["a", "b"] ["b"] 1).exact_overlap)))) :=
  find_candidates_exact_characterization ["a", "b"] ["b"] (by decide)
    (windowCandidate ["a", "b"] ["b"] 1)

/-- C7: The whole-file tree operations enforce their path preconditions: Add
fails with `PathExists` on an existing target; Delete fails with
`PathNotFound` on an absent target; Move fails with `PathNotFound` on a
missing source and `PathExists` on a present target, and otherwise places the
source's content unchanged at the target path. -/
theorem tree_operation_preconditions :
    (∀ (t : FileTree) (p c content : String),
        t p = some c →
        applyOperation t (.add p content) = ⟨t, [], .error .PathExists⟩) ∧
    (∀ (t : FileTree) (p : String),
        t p = none →
        applyOperation t (.delete p) = ⟨t, [], .error .PathNotFound⟩) ∧
    (∀ (t : FileTree) (src dst : String),
        t src = none →
        applyOperation t (.move src dst) = ⟨t, [], .error .PathNotFound⟩) ∧
    (∀ (t : FileTree) (src dst c d : String),
        t src = some c → t dst = some d →
        applyOperation t (.move src dst) = ⟨t, [], .error .PathExists⟩) ∧
    (∀ (t : FileTree) (src dst c : String),
        t src = some c → t dst = none → src ≠ dst →
        (applyOperation t (.move src dst) =
           ⟨write_file (remove_file t src) dst c, [(dst, c)], .ok ()⟩ ∧
         (applyOperation t (.move src dst)).tree dst = some c ∧
         (applyOperation t (.move src dst)).tree src = none)) := by
  refine ⟨?_, ?_, ?_, ?_, ?_⟩
  · intro t p c content h
    simp [applyOperation, h]
  · intro t p h
    simp [applyOperation, h]
  · intro t src dst h
    simp [applyOperation, h]
  · intro t src dst c d h1 h2
    simp [applyOperation, h1, h2]
  · intro t src dst c h1 h2 hsd
    refine ⟨by simp [applyOperation, h1, h2], ?_, ?_⟩
    · simp [applyOperation, h1, h2, write_file]
    · simp [applyOperation, h1, h2, write_file, remove_file, hsd]

/-- Witness for C7's Add precondition at a concrete tree. -/
theorem tree_operation_preconditions_witness :
    applyOperation sampleTree (.add "a.py" "new") = ⟨sampleTree, [], .error .PathExists⟩ :=
  tree_operation_preconditions.1 sampleTree "a.py" "x = 1\ny = 2" "new" (by rfl)

/-- C8: Re-applying the same literal Update patch after a successful first
application fails with `NoMatch` rather than succeeding: in general a hunk
with no qualifying window yields `NoMatch`, and concretely the complex-update
patch succeeds on the template but its second run on the resulting expected
content produces `NoMatch`. -/
theorem reapplication_not_idempotent :
    (∀ (file : List String) (h : Hunk) (prevEnd : Option Nat),
        h.old_lines ≠ [] →
        (∀ s, s < file.length → qualifies file h.old_lines s = false) →
        applyHunk file h prevEnd = .error .NoMatch) ∧
    processHunks complexTemplate complexHunks none = .ok complexExpected ∧
    processHunks complexExpected complexHunks none = .error .NoMatch :=
  ⟨applyHunk_noMatch, complexFirstRun, complexSecondRun⟩

/-- Witness for C8's general conjunct on a file that no longer contains the
hunk's `old_lines`. -/
theorem reapplication_not_idempotent_witness :
    applyHunk ["a"] ⟨[], ["zzz"], [], ["w"]⟩ none = .error .NoMatch :=
  reapplication_not_idempotent.1 ["a"] ⟨[], ["zzz"], [], ["w"]⟩ none
    (by decide) (by decide)

/-- C9: In the vehicles fixture the four `start`-body code lines occur as a
contiguous raw-identical four-line span at exactly positions 23, 81 and 141
(0-based: inside `Car.start`, `Motorcycle.start` and `Truck.start`) and
nowhere else, while the window at `ElectricCar.start` (position 218) agrees
on exactly three of four lines — its condition reads `self.battery_level` —
so it matches with score 0.75 under whitespace-normalized equality. -/
theorem vehicles_identical_spans :
    ((List.range (vehiclesFile.length + 1 - startBody.length)).filter
        (fun s => decide (countExact vehiclesFile startBody s = startBody.length))
      = [23, 81, 141]) ∧
    countExact vehiclesFile startBody 218 = 3 ∧
    countFuzzy vehiclesFile startBody 218 = 3 ∧
    (windowCandidate vehiclesFile startBody 218).score = 3 / 4 ∧
    vehiclesFile.getD 218 "" = "        if self.battery_level > 0:" ∧
    vehiclesFile.getD 219 "" = "            self.is_running = True" ∧
    vehiclesFile.getD 220 "" = "            return True" ∧
    vehiclesFile.getD 221 "" = "        return False" := by
  refine ⟨by rfl, by rfl, by rfl, ?_, by rfl, by rfl, by rfl, by rfl⟩
  have h3 : countFuzzy vehiclesFile startBody 218 = 3 := by rfl
  have h4 : startBody.length = 4 := by rfl
  show mkRat (countFuzzy vehiclesFile startBody 218) startBody.length = 3 / 4
  rw [h3, h4, mkRat_nat_div]
  norm_num

/-- C10: The expected whitespace-fuzzy fixture is itself not in normalized
form: line 1 ends in trailing spaces after the colon, and every line of the
`process_data` body (1-based lines 19–29) — indented with a mix of raw tabs
and spaces — differs from its whitespace-normalized form, so the on-disk
content an implementation must produce retains whitespace that any
normalization would remove. -/
theorem whitespace_expected_unnormalized :
    whitespaceExpected.getD 0 "" = "def calculate_result(x, y):  " ∧
    normalizeLine (whitespaceExpected.getD 0 "") ≠ whitespaceExpected.getD 0 "" ∧
    (whitespaceExpected.getD 18 "").toList.head? = some '\t' ∧
    whitespaceExpected.getD 21 "" = "  for item in items:  " ∧
    ((List.range' 18 11).any
        (fun i => (whitespaceExpected.getD i "").toList.contains '\t')) = true ∧
    ((List.range' 18 11).all
        (fun i => decide (normalizeLine (whitespaceExpected.getD i "") ≠
          whitespaceExpected.getD i ""))) = true := by
  refine ⟨by rfl, by decide, by rfl, by rfl, by rfl, by decide⟩
